import Mathlib

/-!
Verification of the chemezy reaction-prediction pipeline.

This file shallowly embeds the core of the repository:

* SHA-256 and the Python json serialization used by
  ReactionEngineService._generate_cache_key (app/services/reaction_engine.py),
* the PubChem fact retriever (app/services/pubchem_service.py) together with
  the retrying wrapper ReactionEngineService._get_chemical_context_with_retries,
* the physics-based heuristic fallback and the orchestrator
  ReactionEngineService.predict_reaction together with the /reactions/react
  endpoint wrapper (app/api/v1/endpoints/reactions.py),
* the discovery ledger check _check_world_first_effects,
* the sibling pipeline ReactionService.predict_reaction
  (app/services/reaction_service.py).

External collaborators (the HTTP library, the LLM backend) are modelled as
oracles passed in as arguments; machine integers do not occur (Python ints are
unbounded, SHA-256 words are reduced mod 2 ^ 32 explicitly).
-/

/-! ## SHA-256 (pure, over lists of bytes-as-Nat) -/

/-- Reduce to a 32-bit word, mirroring the wraparound of SHA-256 word ops. -/
def w32 (n : Nat) : Nat := n % 4294967296

/-- Rotate a 32-bit word right by n bits. -/
def rotWordRight (n x : Nat) : Nat := w32 ((x >>> n) ||| (x <<< (32 - n)))

/-- Logical shift right. -/
def shr (n x : Nat) : Nat := x >>> n

/-- Bitwise complement within 32 bits. -/
def not32 (x : Nat) : Nat := x ^^^ 4294967295

def sumUpperA (x : Nat) : Nat := (rotWordRight 2 x) ^^^ (rotWordRight 13 x) ^^^ (rotWordRight 22 x)
def sumUpperE (x : Nat) : Nat := (rotWordRight 6 x) ^^^ (rotWordRight 11 x) ^^^ (rotWordRight 25 x)
def spreadLowS (x : Nat) : Nat := (rotWordRight 7 x) ^^^ (rotWordRight 18 x) ^^^ (shr 3 x)
def spreadHighS (x : Nat) : Nat := (rotWordRight 17 x) ^^^ (rotWordRight 19 x) ^^^ (shr 10 x)

def chooseBits (x y z : Nat) : Nat := (x &&& y) ^^^ ((not32 x) &&& z)
def majorityBits (x y z : Nat) : Nat := (x &&& y) ^^^ (x &&& z) ^^^ (y &&& z)

/-- The 64 SHA-256 round constants (FIPS 180-4, written in decimal). -/
def sha2K : List Nat :=
  [1116352408, 1899447441, 3049323471, 3921009573, 961987163,
   1508970993, 2453635748, 2870763221, 3624381080, 310598401,
   607225278, 1426881987, 1925078388, 2162078206, 2614888103,
   3248222580, 3835390401, 4022224774, 264347078, 604807628,
   770255983, 1249150122, 1555081692, 1996064986, 2554220882,
   2821834349, 2952996808, 3210313671, 3336571891, 3584528711,
   113926993, 338241895, 666307205, 773529912, 1294757372,
   1396182291, 1695183700, 1986661051, 2177026350, 2456956037,
   2730485921, 2820302411, 3259730800, 3345764771, 3516065817,
   3600352804, 4094571909, 275423344, 430227734, 506948616,
   659060556, 883997877, 958139571, 1322822218, 1537002063,
   1747873779, 1955562222, 2024104815, 2227730452, 2361852424,
   2428436474, 2756734187, 3204031479, 3329325298]

/-- The initial SHA-256 hash state (FIPS 180-4, written in decimal). -/
def sha2H0 : List Nat :=
  [1779033703, 3144134277, 1013904242, 2773480762,
   1359893119, 2600822924, 528734635, 1541459225]

/-- Group bytes into big-endian 32-bit words (input length a multiple of 4). -/
def bytesToWords : List Nat → List Nat
  | a :: b :: c :: d :: rest =>
      (a * 16777216 + b * 65536 + c * 256 + d) :: bytesToWords rest
  | _ => []

/-- One step of the message-schedule extension.  The schedule is kept in
reverse order, so the most recently produced word is at the head. -/
def extendStep (rev : List Nat) : List Nat :=
  w32 (spreadHighS (rev.getD 1 0) + rev.getD 6 0 + spreadLowS (rev.getD 14 0) + rev.getD 15 0) :: rev

/-- Full 64-word message schedule of one 64-byte block. -/
def schedule (block : List Nat) : List Nat :=
  ((List.range 48).foldl (fun rev _ => extendStep rev) (bytesToWords block).reverse).reverse

/-- One round of the compression function on the 8-word working state. -/
def compressStep (s : List Nat) (kw : Nat × Nat) : List Nat :=
  match s with
  | [a, b, c, d, e, f, g, h] =>
      let t1 := w32 (h + sumUpperE e + chooseBits e f g + kw.1 + kw.2)
      let t2 := w32 (sumUpperA a + majorityBits a b c)
      [w32 (t1 + t2), a, b, c, w32 (d + t1), e, f, g]
  | s => s

/-- Compress one 64-byte block into the running hash state. -/
def compressBlock (h : List Nat) (block : List Nat) : List Nat :=
  let fin := (sha2K.zip (schedule block)).foldl compressStep h
  (h.zip fin).map (fun p => w32 (p.1 + p.2))

/-- SHA-256 padding: append 0x80, zeros, and the 64-bit big-endian bit length. -/
def padMessage (msg : List Nat) : List Nat :=
  let len := msg.length
  let zeros := (119 - len % 64) % 64
  msg ++ [0x80] ++ List.replicate zeros 0 ++
    ([56, 48, 40, 32, 24, 16, 8, 0].map (fun s => (len * 8) >>> s % 256))

/-- Split a byte list into 64-byte chunks (fuelled recursion). -/
def chunksAux : Nat → List Nat → List (List Nat)
  | 0, _ => []
  | _ + 1, [] => []
  | n + 1, l => l.take 64 :: chunksAux n (l.drop 64)

def chunks64 (l : List Nat) : List (List Nat) := chunksAux l.length l

/-- SHA-256 digest as eight 32-bit words. -/
def sha256Words (msg : List Nat) : List Nat :=
  (chunks64 (padMessage msg)).foldl compressBlock sha2H0

def hexDigit (n : Nat) : Char :=
  if n < 10 then Char.ofNat (48 + n) else Char.ofNat (87 + n)

/-- Lowercase hex rendering of one 32-bit word (8 digits). -/
def wordHex (n : Nat) : String :=
  String.mk ([28, 24, 20, 16, 12, 8, 4, 0].map (fun s => hexDigit ((n >>> s) % 16)))

/-- hashlib.sha256(...).hexdigest(): lowercase hex of the 32-byte digest. -/
def sha256Hex (msg : List Nat) : String :=
  String.join ((sha256Words msg).map wordHex)

/-! ## UTF-8 and the Python json serialization used by the cache key -/

/-- UTF-8 encoding of a single character, as byte values. -/
def utf8Bytes (c : Char) : List Nat :=
  let n := c.toNat
  if n < 0x80 then [n]
  else if n < 0x800 then
    [0xC0 ||| (n >>> 6), 0x80 ||| (n &&& 0x3F)]
  else if n < 0x10000 then
    [0xE0 ||| (n >>> 12), 0x80 ||| ((n >>> 6) &&& 0x3F), 0x80 ||| (n &&& 0x3F)]
  else
    [0xF0 ||| (n >>> 18), 0x80 ||| ((n >>> 12) &&& 0x3F),
     0x80 ||| ((n >>> 6) &&& 0x3F), 0x80 ||| (n &&& 0x3F)]

/-- str.encode(): the UTF-8 bytes of a string. -/
def strBytes (s : String) : List Nat := s.data.flatMap utf8Bytes

def hex4 (n : Nat) : String :=
  String.mk ([12, 8, 4, 0].map (fun s => hexDigit ((n >>> s) % 16)))

/-- How json.dumps (ensure_ascii default) renders one character inside a
string literal: printable ASCII passes through, everything else is escaped. -/
def jsonEscapeChar (c : Char) : String :=
  if c = '"' then "\\\""
  else if c = '\\' then "\\\\"
  else if c = '\n' then "\\n"
  else if c = '\r' then "\\r"
  else if c = '\t' then "\\t"
  else if c.toNat = 8 then "\\b"
  else if c.toNat = 12 then "\\f"
  else if 0x20 ≤ c.toNat ∧ c.toNat ≤ 0x7E then String.singleton c
  else if c.toNat < 0x10000 then "\\u" ++ hex4 c.toNat
  else
    "\\u" ++ hex4 (0xD800 + ((c.toNat - 0x10000) >>> 10)) ++
    "\\u" ++ hex4 (0xDC00 + ((c.toNat - 0x10000) &&& 0x3FF))

/-- json.dumps of a string value. -/
def pyJsonString (s : String) : String :=
  "\"" ++ String.join (s.data.map jsonEscapeChar) ++ "\""

/-- json.dumps of a list of strings (default separators: comma-space). -/
def pyJsonStrList (xs : List String) : String :=
  "[" ++ String.intercalate ", " (xs.map pyJsonString) ++ "]"

namespace ReactionEngineService

/-- sorted(chemicals): Python sorts strings ascending by code points. -/
def sortedStrings (l : List String) : List String :=
  l.insertionSort (· ≤ ·)

/-- json.dumps with sort_keys=True of the dict built in _generate_cache_key.
The keys chemicals and environment are emitted in that (sorted) order. -/
def keyString (chemicals : List String) (environment : String) : String :=
  "\x7b\"chemicals\": " ++ pyJsonStrList (sortedStrings chemicals) ++
    ", \"environment\": " ++ pyJsonString environment ++ "\x7d"

/-- ReactionEngineService._generate_cache_key: sha256 hexdigest of the
canonical json serialization of the sorted chemicals and the environment. -/
def generate_cache_key (chemicals : List String) (environment : String) : String :=
  sha256Hex (strBytes (keyString chemicals environment))

end ReactionEngineService

/-! ## PubChemService (app/services/pubchem_service.py)

The HTTP library is modelled as an oracle from URL to outcome: either an
exception (requests.get or response.json raising) or a response with a status
code and the optional parsed PropertyTable.Properties[0] record. -/

/-- The parsed first Properties record of a 200 response, when present. -/
structure PubProps where
  molecular_formula : Option String
  molecular_weight : Option String
  h_bond_donors : Option Nat
  h_bond_acceptors : Option Nat
deriving DecidableEq, Repr

/-- Outcome of one requests.get call. -/
inductive HttpResult where
  | exn
  | resp (status : Nat) (props : Option PubProps)
deriving Repr

/-- The record _sync_get_compound_data returns for one compound. -/
structure PubRecord where
  formula : String
  molecular_weight : Option String
  h_bond_donors : Nat
  h_bond_acceptors : Nat
  source : String
deriving DecidableEq, Repr

namespace PubChemService

/-- The two candidate URLs tried for a compound (formula first, then name). -/
def urlsFor (base compound : String) : List String :=
  [base ++ "/compound/formula/" ++ compound ++
     "/property/MolecularFormula,MolecularWeight,HBondDonorCount,HBondAcceptorCount/JSON",
   base ++ "/compound/name/" ++ compound ++
     "/property/MolecularFormula,MolecularWeight,HBondDonorCount,HBondAcceptorCount/JSON"]

/-- The body of the try in _sync_get_compound_data: walk the URLs; a 200
response with a Properties record returns immediately, anything else moves to
the next URL; an exception aborts the whole body. -/
def tryUrls (oracle : String → HttpResult) (compound : String) :
    List String → Except Unit (Option PubRecord)
  | [] => .ok none
  | url :: rest =>
    match oracle url with
    | .exn => .error ()
    | .resp status props =>
      if status = 200 then
        match props with
        | some p =>
            .ok (some ⟨p.molecular_formula.getD compound, p.molecular_weight,
                       p.h_bond_donors.getD 0, p.h_bond_acceptors.getD 0, "PubChem"⟩)
        | none => tryUrls oracle compound rest
      else tryUrls oracle compound rest

/-- PubChemService._sync_get_compound_data: the except-clause turns any
exception into an Error placeholder; exhausting both URLs yields Unknown. -/
def sync_get_compound_data (oracle : String → HttpResult) (base compound : String) :
    PubRecord :=
  match tryUrls oracle compound (urlsFor base compound) with
  | .ok (some r) => r
  | .ok none => ⟨compound, none, 0, 0, "Unknown"⟩
  | .error _ => ⟨compound, none, 0, 0, "Error"⟩

/-- PubChemService.get_compound_data: runs the synchronous fetch in an
executor.  The synchronous body is total (its except-clause already catches
everything), so the outer except-clause that would yield None is dead and the
result is always a record. -/
def get_compound_data (oracle : String → HttpResult) (base compound : String) :
    Option PubRecord :=
  some (sync_get_compound_data oracle base compound)

/-- Python dict assignment semantics on an association list: an existing key
is overwritten in place, a new key is appended. -/
def dictInsert (d : List (String × PubRecord)) (k : String) (v : PubRecord) :
    List (String × PubRecord) :=
  if d.any (fun p => p.1 == k) then d.map (fun p => if p.1 == k then (k, v) else p)
  else d ++ [(k, v)]

def dictKeys (d : List (String × PubRecord)) : List String := d.map Prod.fst

/-- PubChemService.get_multiple_compounds_data: gather all per-compound
fetches and build the dict, skipping None results (which never occur). -/
def get_multiple_compounds_data (oracle : String → HttpResult) (base : String)
    (compounds : List String) : List (String × PubRecord) :=
  (compounds.map (fun c => (c, get_compound_data oracle base c))).foldl
    (fun acc p => match p.2 with | some r => dictInsert acc p.1 r | none => acc) []

end PubChemService

namespace ReactionEngineService

/-- The placeholder record built by _get_chemical_context_with_retries when
all attempts fail. -/
def fallbackRecord (chemical : String) : PubRecord :=
  ⟨chemical, none, 0, 0, "Fallback"⟩

/-- ReactionEngineService._get_chemical_context_with_retries: three attempts
(each attempt may see a different state of the network, hence an oracle per
attempt); a non-empty dict is returned immediately, exceptions are caught and
backed off (no state), and after the loop a minimal per-chemical fallback
context is built. -/
def get_chemical_context_with_retries (oracle : Nat → String → HttpResult)
    (base : String) (chemicals : List String) : List (String × PubRecord) :=
  let a0 := PubChemService.get_multiple_compounds_data (oracle 0) base chemicals
  if ¬a0.isEmpty then a0 else
  let a1 := PubChemService.get_multiple_compounds_data (oracle 1) base chemicals
  if ¬a1.isEmpty then a1 else
  let a2 := PubChemService.get_multiple_compounds_data (oracle 2) base chemicals
  if ¬a2.isEmpty then a2 else
  chemicals.foldl (fun acc c => PubChemService.dictInsert acc c (fallbackRecord c)) []

end ReactionEngineService

/-! ## Reaction engine data model (app/models/reaction.py, app/schemas/reaction.py)

Timestamps (created_at, discovered_at) are set from the wall clock and never
read by the embedded code, so they are omitted from the rows.  Row ids are
assigned by the database at flush time; the model keeps a next_id counter. -/

/-- schemas.reaction.ChemicalProduct. -/
structure ChemicalProduct where
  formula : String
  name : String
  state : String
deriving DecidableEq, Repr

/-- The validated prediction dict flowing out of _generate_prediction
(keys products, effects, state_change, description). -/
structure PredictionDict where
  products : List ChemicalProduct
  effects : List String
  state_change : Option String
  description : String
deriving DecidableEq, Repr

/-- models.reaction.ReactionCache row. -/
structure ReactionCache where
  id : Nat
  cache_key : String
  reactants : List String
  environment : String
  products : List ChemicalProduct
  effects : List String
  state_change : Option String
  description : String
  user_id : Nat
deriving DecidableEq, Repr

/-- models.reaction.Discovery row (effect carries a unique constraint). -/
structure Discovery where
  effect : String
  discovered_by : Nat
  reaction_cache_id : Nat
deriving DecidableEq, Repr

/-- The committed database state seen by the engine pipeline. -/
structure DB where
  reaction_cache : List ReactionCache
  discovery : List Discovery
  next_id : Nat
deriving DecidableEq, Repr

def emptyDB : DB := ⟨[], [], 1⟩

/-- schemas.reaction.ReactionResponse. -/
structure ReactionResponse where
  request_id : String
  products : List ChemicalProduct
  effects : List String
  state_change : Option String
  description : String
  is_world_first : Bool
deriving DecidableEq, Repr

/-! ## Python string helpers used by the heuristic fallback -/

/-- Is the first list a prefix of the second (decidable, by recursion). -/
def matchesAt : List Char → List Char → Bool
  | [], _ => true
  | _ :: _, [] => false
  | a :: as, b :: bs => a == b && matchesAt as bs

/-- Does needle occur contiguously inside hay. -/
def occursWithin (needle : List Char) : List Char → Bool
  | [] => matchesAt needle []
  | b :: bs => matchesAt needle (b :: bs) || occursWithin needle bs

/-- Python substring containment: needle in hay. -/
def pyIn (needle hay : String) : Bool := occursWithin needle.data hay.data

/-- str.lower() (the identifiers involved are ASCII). -/
def pyLower (s : String) : String := String.mk (s.data.map Char.toLower)

namespace ReactionEngineService

/-- ReactionEngineService._get_compound_name: the common-name lookup table
with a generic default. -/
def get_compound_name (formula : String) : String :=
  if formula == "H2O" then "Water"
  else if formula == "NaCl" then "Sodium Chloride"
  else if formula == "HCl" then "Hydrochloric Acid"
  else if formula == "NaOH" then "Sodium Hydroxide"
  else if formula == "H2SO4" then "Sulfuric Acid"
  else if formula == "CaCO3" then "Calcium Carbonate"
  else if formula == "O2" then "Oxygen"
  else if formula == "H2" then "Hydrogen"
  else if formula == "CO2" then "Carbon Dioxide"
  else if formula == "NH3" then "Ammonia"
  else "Compound " ++ formula

/-- ReactionEngineService._generate_physics_description. -/
def generate_physics_description (chemicals : List String) (environment : String)
    (_products : List ChemicalProduct) (effects : List String) : String :=
  let joined := String.intercalate " and " (chemicals.map get_compound_name)
  if effects.contains "dissolving" then
    joined ++ " undergo dissolution in " ++ environment ++
      ", forming a homogeneous solution with ionic dissociation."
  else if effects.contains "neutralization" then
    "Acid-base neutralization occurs between " ++ joined ++ " in " ++ environment ++
      ", producing water and salt."
  else if effects.contains "gas_evolution" then
    "Vigorous reaction between " ++ joined ++ " in " ++ environment ++
      " produces gas evolution and heat release."
  else
    "Physical mixing of " ++ joined ++ " occurs in " ++ environment ++
      " environment with minimal chemical change."

/-- ReactionEngineService._get_physics_based_fallback.  The context_data
argument is accepted and ignored, exactly as in the source.  The branches
that index chemicals[0] are only reached when the guards found a matching
element, so the list is non-empty there and headD never takes its default. -/
def get_physics_based_fallback (chemicals : List String) (environment : String)
    (_context_data : List (String × PubRecord)) : PredictionDict :=
  let has_water := chemicals.any (fun c => pyIn "H2O" c || pyIn "water" (pyLower c))
  let has_salt := chemicals.any (fun c => pyIn "Cl" c && (pyIn "Na" c || pyIn "K" c))
  let has_acid := chemicals.any (fun c =>
    pyIn "H" c && (["SO4", "NO3", "Cl"].any (fun m => pyIn m c)))
  let has_base := chemicals.any (fun c => pyIn "OH" c)
  let has_metal := chemicals.any (fun c =>
    ["Na", "K", "Ca", "Mg", "Fe", "Al", "Zn"].any (fun m => pyIn m c))
  let first := chemicals.headD ""
  let pe : List ChemicalProduct × List String :=
    if has_water && has_salt then
      ([⟨first, get_compound_name first, "dissolved"⟩, ⟨"H2O", "Water", "liquid"⟩],
       ["dissolving", "ionic_dissociation"])
    else if has_acid && has_base then
      ([⟨"H2O", "Water", "liquid"⟩, ⟨"Salt", "Salt Product", "solid"⟩],
       ["neutralization", "heat_release", "bubbling"])
    else if has_metal && has_water then
      ([⟨"H2", "Hydrogen Gas", "gas"⟩, ⟨first ++ "OH", "Metal Hydroxide", "aqueous"⟩],
       ["gas_evolution", "vigorous_reaction", "heat_release"])
    else
      (chemicals.map (fun c => ⟨c, get_compound_name c, "mixed"⟩), ["physical_mixing"])
  let es : List String × Option String :=
    if pyIn "vacuum" (pyLower environment) then (pe.2 ++ ["rapid_boiling"], some "gas")
    else if pyIn "high_temperature" (pyLower environment) then
      (pe.2 ++ ["thermal_decomposition", "phase_change"], none)
    else if pyIn "low_temperature" (pyLower environment) then
      (pe.2 ++ ["crystallization"], none)
    else (pe.2, none)
  let effects := if es.1.isEmpty then ["mixing", "temperature_change"] else es.1
  { products := pe.1, effects := effects, state_change := es.2,
    description := generate_physics_description chemicals environment pe.1 effects }

/-- Outcome of one DSPy attempt: either the validated, parsed prediction
( _validate_and_parse_prediction returned a dict), or a failure (exception,
JSON error, or validation returning None). -/
inductive LLMAttempt where
  | valid (p : PredictionDict)
  | failed
deriving Repr

/-- Which of the two generation paths produced the prediction. -/
inductive GenSource where
  | llm
  | fallback
deriving DecidableEq, Repr

/-- ReactionEngineService._generate_prediction: with a configured predictor,
up to three attempts; the first attempt whose output validates is returned;
otherwise (or with no predictor at all) the physics-based fallback runs on
the retrieved context.  Exactly one of the two paths yields the result. -/
def generate_prediction (configured : Bool) (attempts : List LLMAttempt)
    (context_data : List (String × PubRecord))
    (chemicals : List String) (environment : String) : GenSource × PredictionDict :=
  if configured then
    match (attempts.take 3).findSome?
        (fun a => match a with | .valid p => some p | .failed => none) with
    | some p => (.llm, p)
    | none => (.fallback, get_physics_based_fallback chemicals environment context_data)
  else (.fallback, get_physics_based_fallback chemicals environment context_data)

/-- ReactionEngineService._check_world_first_effects: for each effect in
order, query the ledger; if absent, add a Discovery row (visible to the later
queries of the same loop, as under autoflush).  The returned flag records
whether any insertion happened.  The commit keyword of the source only
chooses when the surrounding transaction commits; transaction boundaries are
modelled at the endpoint level. -/
def check_world_first_effects : List String → Nat → Nat → DB → Bool × DB
  | [], _, _, db => (false, db)
  | e :: es, user_id, cache_id, db =>
    match db.discovery.find? (fun d => d.effect == e) with
    | some _ => check_world_first_effects es user_id cache_id db
    | none =>
        let db1 : DB :=
          { db with discovery := db.discovery ++ [⟨e, user_id, cache_id⟩] }
        (true, (check_world_first_effects es user_id cache_id db1).2)

end ReactionEngineService

/-- The failure modes of one request through the engine pipeline. -/
inductive EngineError where
  /-- The endpoint rejects an empty chemicals list (HTTP 400), before the pipeline. -/
  | emptyRequest
  /-- IntegrityError: the unique constraint on cache_key fired at flush because a
  concurrent request committed the same fingerprint after our cache lookup. -/
  | uniqueViolation
  /-- An arbitrary exception raised after the cache insert (fault injection for
  the steps between flush and response assembly). -/
  | injectedFault
deriving DecidableEq, Repr

namespace ReactionEngineService

/-- ReactionEngineService.predict_reaction.  Arguments beyond the Python ones:

* request_id stands for the uuid4 drawn for this request;
* configured / attempts are the reasoning-backend oracle (absence of an
  OpenAI key, and the outcome of each DSPy attempt);
* pub is the HTTP oracle for the PubChem context fetch;
* interference is the set of cache rows committed by concurrent transactions
  between our cache lookup and our flush (they become visible at the flush,
  where the unique constraint is checked);
* fault injects an exception into the steps after the flush.

On an exception the paired DB is the state after the endpoint rollback: the
session writes of this request vanish, concurrently committed interference
rows survive. -/
def predict_reaction (request_id : String) (configured : Bool)
    (attempts : List LLMAttempt) (pub : Nat → String → HttpResult) (base : String)
    (chemicals : List String) (environment : String) (user_id : Nat)
    (interference : List ReactionCache) (fault : Bool) (db : DB) :
    Except (EngineError × DB) (ReactionResponse × DB) :=
  let cache_key := generate_cache_key chemicals environment
  match db.reaction_cache.find? (fun r => r.cache_key == cache_key) with
  | some cached =>
    let wfdb := check_world_first_effects cached.effects user_id cached.id db
    .ok ({ request_id := request_id, products := cached.products,
           effects := cached.effects, state_change := cached.state_change,
           description := cached.description, is_world_first := wfdb.1 }, wfdb.2)
  | none =>
    let context_data := get_chemical_context_with_retries pub base chemicals
    let sp := generate_prediction configured attempts context_data chemicals environment
    let pred := sp.2
    let db1 : DB := { db with reaction_cache := db.reaction_cache ++ interference }
    if db1.reaction_cache.any (fun r => r.cache_key == cache_key) then
      .error (.uniqueViolation, db1)
    else
      let entry : ReactionCache :=
        { id := db1.next_id, cache_key := cache_key, reactants := chemicals,
          environment := environment, products := pred.products,
          effects := pred.effects, state_change := pred.state_change,
          description := pred.description, user_id := user_id }
      let db2 : DB := { db1 with
        reaction_cache := db1.reaction_cache ++ [entry],
        next_id := db1.next_id + 1 }
      if fault then .error (.injectedFault, db1)
      else
        let wfdb := check_world_first_effects pred.effects user_id entry.id db2
        .ok ({ request_id := request_id, products := pred.products,
               effects := pred.effects, state_change := pred.state_change,
               description := pred.description, is_world_first := wfdb.1 }, wfdb.2)

end ReactionEngineService

/-- One logical request through the /reactions/react endpoint, bundling the
request body with the oracles describing the environment of its execution. -/
structure EngineRequest where
  request_id : String
  configured : Bool
  attempts : List ReactionEngineService.LLMAttempt
  pub : Nat → String → HttpResult
  base : String
  chemicals : List String
  environment : String
  user_id : Nat
  interference : List ReactionCache
  fault : Bool

/-- api/v1/endpoints/reactions.predict_reaction: reject an empty chemicals
list with a 400 before the pipeline; otherwise run the engine and commit, or
roll the transaction back and surface a generic error. -/
def predict_reaction_endpoint (req : EngineRequest) (db : DB) :
    Except EngineError ReactionResponse × DB :=
  if req.chemicals.isEmpty then (.error .emptyRequest, db)
  else
    match ReactionEngineService.predict_reaction req.request_id req.configured
        req.attempts req.pub req.base req.chemicals req.environment req.user_id
        req.interference req.fault db with
    | .ok (resp, db1) => (.ok resp, db1)
    | .error (e, db1) => (.error e, db1)

/-- Sequential execution of a list of requests against the shared store. -/
def run_requests (reqs : List EngineRequest) (db : DB) : DB :=
  reqs.foldl (fun d r => (predict_reaction_endpoint r d).2) db

/-- The record of one step of a request sequence: the result returned to the
client and the committed store before and after. -/
structure StepLog where
  result : Except EngineError ReactionResponse
  dbBefore : DB
  dbAfter : DB

/-- Execution trace of a request sequence. -/
def run_trace : List EngineRequest → DB → List StepLog
  | [], _ => []
  | r :: rs, db =>
    let out := predict_reaction_endpoint r db
    ⟨out.1, db, out.2⟩ :: run_trace rs out.2

/-- The effect keys whose Discovery rows were inserted by this step. -/
def insertedKeys (s : StepLog) : List String :=
  (s.dbAfter.discovery.drop s.dbBefore.discovery.length).map (fun d => d.effect)

/-- The world-first flag of the response of this step (false on errors). -/
def worldFirstOf (s : StepLog) : Bool :=
  match s.result with
  | .ok r => r.is_world_first
  | .error _ => false

/-! ## ReactionService (app/services/reaction_service.py)

The sibling pipeline.  Its input serialization reads Chemical rows from the
database and feeds their json dump through _generate_cache_key; the resulting
fingerprint string is taken here as an input (its value never influences the
properties below).  Only the Chemical fields read by the embedded code are
modelled. -/

/-- models.chemical.Chemical, restricted to the fields the service reads. -/
structure Chemical where
  id : Nat
  molecular_formula : String
  common_name : String
deriving DecidableEq, Repr

/-- schemas.reaction.ProductOutput as used by ReactionService. -/
structure ProductOutput where
  chemical_id : Option Nat
  molecular_formula : String
  common_name : String
  quantity : ℚ
  is_soluble : Bool
deriving DecidableEq, Repr

/-- A structured effect as consumed by _check_and_log_discoveries, which only
reads its effect_type discriminator. -/
structure EffectObj where
  effect_type : String
deriving DecidableEq, Repr

/-- Modelled from the spec: the schemas.reaction.ReactionPrediction response
model is imported by reaction_service.py but missing from the checked-in
schema module; per the spec the response carries products, effects, an
explanation and an is_world_first flag, the flag defaulting to false when the
constructor is called without it (the service sets it explicitly afterwards
on the generation and cache-hit paths, and never on the fallback path). -/
structure ServicePrediction where
  products : List ProductOutput
  effects : List EffectObj
  explanation : String
  is_world_first : Bool := false
deriving DecidableEq, Repr

/-- A reaction_cache row as written by ReactionService (products are
ProductOutput dumps and the rationale column is the explanation). -/
structure SvcCacheRow where
  id : Nat
  cache_key : String
  reactants : List String
  environment : String
  products : List ProductOutput
  effects : List EffectObj
  explanation : String
  user_id : Nat
deriving DecidableEq, Repr

/-- The database state seen by the service pipeline. -/
structure SvcDB where
  reaction_cache : List SvcCacheRow
  discovery : List Discovery
  next_id : Nat
deriving DecidableEq, Repr

def emptySvcDB : SvcDB := ⟨[], [], 1⟩

/-- Failure modes of the service pipeline. -/
inductive ServiceError where
  /-- The DSPy predictor raised after exhausting its retries; nothing catches it. -/
  | predictorFailed
  /-- An arbitrary exception raised during discovery logging (fault injection). -/
  | injectedFault
deriving DecidableEq, Repr

namespace ReactionService

/-- ReactionService._fallback_prediction: one soluble unit product per
reactant, no effects, a fixed explanation, and the constructor default for
is_world_first. -/
def fallback_prediction (reactants : List Chemical) : ServicePrediction :=
  { products := reactants.map (fun r =>
      { chemical_id := some r.id, molecular_formula := r.molecular_formula,
        common_name := r.common_name, quantity := 1, is_soluble := true }),
    effects := [], explanation := "Fallback prediction." }

/-- ReactionService._check_and_log_discoveries: like the engine check but
keyed on each effect object's effect_type.  The award evaluation that follows
a world-first commit is wrapped in its own catch-all and touches no reaction
state, so it does not appear in the model. -/
def check_and_log_discoveries : List EffectObj → Nat → Nat → SvcDB → Bool × SvcDB
  | [], _, _, db => (false, db)
  | e :: es, user_id, cache_id, db =>
    match db.discovery.find? (fun d => d.effect == e.effect_type) with
    | some _ => check_and_log_discoveries es user_id cache_id db
    | none =>
        let db1 : SvcDB :=
          { db with discovery := db.discovery ++ [⟨e.effect_type, user_id, cache_id⟩] }
        (true, (check_and_log_discoveries es user_id cache_id db1).2)

/-- ReactionService.predict_reaction after input serialization.

* cache_key is the fingerprint computed from the serialized reactants,
  environment and catalyst;
* dspy_configured models settings.dspy_enabled;
* dspy_result is the outcome of the predictor plus
  _process_and_validate_prediction: the validated prediction, or none if the
  pipeline raised (which nothing in the service catches);
* fault injects an exception into the discovery-logging step.

The first component is what the caller sees, the second the committed store
afterwards.  The cache insert is committed on its own (self.db.commit())
before discovery logging, so on a later failure the row survives. -/
def predict_reaction (cache_key environment : String) (reactants : List Chemical)
    (dspy_configured : Bool) (dspy_result : Option ServicePrediction)
    (fault : Bool) (user_id : Nat) (db : SvcDB) :
    Except ServiceError ServicePrediction × SvcDB :=
  match db.reaction_cache.find? (fun r => r.cache_key == cache_key) with
  | some cached =>
    let pred : ServicePrediction :=
      { products := cached.products, effects := cached.effects,
        explanation := cached.explanation, is_world_first := false }
    let wfdb := check_and_log_discoveries cached.effects user_id cached.id db
    (.ok { pred with is_world_first := wfdb.1 }, wfdb.2)
  | none =>
    if ¬dspy_configured then
      (.ok (fallback_prediction reactants), db)
    else
      match dspy_result with
      | none => (.error .predictorFailed, db)
      | some validated =>
        let row : SvcCacheRow :=
          { id := db.next_id, cache_key := cache_key,
            reactants := reactants.map (fun r => r.molecular_formula),
            environment := environment, products := validated.products,
            effects := validated.effects, explanation := validated.explanation,
            user_id := user_id }
        let dbC : SvcDB := { db with
          reaction_cache := db.reaction_cache ++ [row],
          next_id := db.next_id + 1 }
        if fault then (.error .injectedFault, dbC)
        else
          let wfdb := check_and_log_discoveries validated.effects user_id row.id dbC
          (.ok { validated with is_world_first := wfdb.1 }, wfdb.2)

/-- json.dumps(json.loads(reactants_data_str), sort_keys=True) for the
top-level json array produced by _serialize_reactants: re-serialization sorts
the keys inside each element but keeps the array elements in their original
submission order.  Each element enters the model as its canonical (sorted-key)
per-element serialization, since per-element canonicalization is applied
element-wise and cannot reorder the array. -/
def sorted_reactants_data (canonicalElements : List String) : String :=
  "[" ++ String.intercalate ", " canonicalElements ++ "]"

/-- ReactionService._generate_cache_key: sha256 hexdigest of the re-serialized
reactants data joined with the environment and the catalyst string by
hyphens.  Unlike the engine deriver, nothing here sorts the reactant list
itself: the serialized reactants keep their request submission order. -/
def generate_cache_key (canonicalElements : List String)
    (environment catalyst_data_str : String) : String :=
  sha256Hex (strBytes (sorted_reactants_data canonicalElements ++ "-" ++
    environment ++ "-" ++ catalyst_data_str))

end ReactionService

/-! ## Shared lemmas -/

/-- Sorting is invariant under permutation of the input. -/
theorem sortedStrings_perm_eq {l l' : List String} (h : l.Perm l') :
    ReactionEngineService.sortedStrings l = ReactionEngineService.sortedStrings l' := by
  unfold ReactionEngineService.sortedStrings
  exact List.eq_of_perm_of_sorted (r := (· ≤ ·))
    ((List.perm_insertionSort _ l).trans (h.trans (List.perm_insertionSort _ l').symm))
    (List.sorted_insertionSort _ l) (List.sorted_insertionSort _ l')

/-- The fingerprint is invariant under permutation of the reactant list. -/
theorem generate_cache_key_perm (R P : List String) (E : String) (h : R.Perm P) :
    ReactionEngineService.generate_cache_key R E =
      ReactionEngineService.generate_cache_key P E := by
  unfold ReactionEngineService.generate_cache_key ReactionEngineService.keyString
  rw [sortedStrings_perm_eq h]

/-- find? over an append when the first part has no match. -/
theorem find?_append_of_none {α : Type} (p : α → Bool) {l1 : List α} (l2 : List α)
    (h : l1.find? p = none) : (l1 ++ l2).find? p = l2.find? p := by
  induction l1 with
  | nil => rfl
  | cons a as ih =>
    cases hp : p a with
    | true => simp [List.find?, hp] at h
    | false => simp only [List.cons_append, List.find?, hp] at h ⊢; exact ih h

/-- A discovery lookup misses exactly when the effect key is absent. -/
theorem find?_effect_none_iff (l : List Discovery) (e : String) :
    (l.find? (fun d => d.effect == e) = none) ↔ e ∉ l.map (fun d => d.effect) := by
  simp [List.find?_eq_none, List.mem_map]

/-- The effect keys present in a discovery ledger. -/
def discKeys (l : List Discovery) : List String := l.map (fun d => d.effect)

@[simp] theorem discKeys_nil : discKeys [] = [] := rfl

@[simp] theorem discKeys_cons (d : Discovery) (l : List Discovery) :
    discKeys (d :: l) = d.effect :: discKeys l := rfl

@[simp] theorem discKeys_append (l1 l2 : List Discovery) :
    discKeys (l1 ++ l2) = discKeys l1 ++ discKeys l2 := by
  simp [discKeys]

/-- Specification of the discovery check: it appends a duplicate-free batch of
fresh effect keys to the ledger, touches nothing else, and reports true
exactly when the batch is non-empty. -/
theorem check_world_first_effects_spec (effects : List String) (u cid : Nat) (db : DB) :
    ∃ tail : List Discovery,
      (ReactionEngineService.check_world_first_effects effects u cid db).2 =
        { db with discovery := db.discovery ++ tail } ∧
      (discKeys tail).Nodup ∧
      (∀ e ∈ discKeys tail, e ∉ discKeys db.discovery) ∧
      ((ReactionEngineService.check_world_first_effects effects u cid db).1 = true ↔
        tail ≠ []) := by
  induction effects generalizing db with
  | nil =>
    refine ⟨[], ?_, ?_, ?_, ?_⟩ <;>
      simp [ReactionEngineService.check_world_first_effects]
  | cons e es ih =>
    simp only [ReactionEngineService.check_world_first_effects]
    cases hfind : db.discovery.find? (fun d => d.effect == e) with
    | some d =>
      simp only [hfind]
      exact ih db
    | none =>
      simp only [hfind]
      obtain ⟨tail, h1, h2, h3, h4⟩ :=
        ih { db with discovery := db.discovery ++ [⟨e, u, cid⟩] }
      have hefresh : e ∉ discKeys db.discovery :=
        (find?_effect_none_iff db.discovery e).mp hfind
      have hkeys1 : discKeys ({ db with
          discovery := db.discovery ++ [⟨e, u, cid⟩] } : DB).discovery =
          discKeys db.discovery ++ [e] := by simp
      have hnot : e ∉ discKeys tail := by
        intro hmem
        exact h3 e hmem (by rw [hkeys1]; simp)
      refine ⟨⟨e, u, cid⟩ :: tail, ?_, ?_, ?_, ?_⟩
      · rw [h1]; simp [List.append_assoc]
      · rw [discKeys_cons, List.nodup_cons]
        exact ⟨hnot, h2⟩
      · intro k hk
        rcases List.mem_cons.mp hk with rfl | hmem
        · exact hefresh
        · intro hkdb
          exact h3 k hmem (by rw [hkeys1]; exact List.mem_append_left _ hkdb)
      · simp

/-! ## Execution lemmas for the endpoint (abbreviations and case equations) -/

/-- The fingerprint of a request (abbreviation). -/
def engineKey (req : EngineRequest) : String :=
  ReactionEngineService.generate_cache_key req.chemicals req.environment

/-- The generation outcome of a request on a cache miss (abbreviation). -/
def enginePrediction (req : EngineRequest) :
    ReactionEngineService.GenSource × PredictionDict :=
  ReactionEngineService.generate_prediction req.configured req.attempts
    (ReactionEngineService.get_chemical_context_with_retries req.pub req.base req.chemicals)
    req.chemicals req.environment

/-- The cache row flushed on a successful miss. -/
def missEntry (req : EngineRequest) (db : DB) : ReactionCache :=
  { id := db.next_id, cache_key := engineKey req, reactants := req.chemicals,
    environment := req.environment,
    products := (enginePrediction req).2.products,
    effects := (enginePrediction req).2.effects,
    state_change := (enginePrediction req).2.state_change,
    description := (enginePrediction req).2.description, user_id := req.user_id }

/-- The session state right after the flush on a successful miss. -/
def missDB (req : EngineRequest) (db : DB) : DB :=
  { reaction_cache := db.reaction_cache ++ req.interference ++ [missEntry req db],
    discovery := db.discovery, next_id := db.next_id + 1 }

/-- Endpoint equation: empty chemicals list (rejected with a 400). -/
theorem endpoint_empty (req : EngineRequest) (db : DB)
    (h : req.chemicals.isEmpty = true) :
    predict_reaction_endpoint req db = (.error .emptyRequest, db) := by
  unfold predict_reaction_endpoint
  simp [h]

/-- Endpoint equation: cache hit. -/
theorem endpoint_hit (req : EngineRequest) (db : DB) (row : ReactionCache)
    (hne : req.chemicals.isEmpty = false)
    (hfind : db.reaction_cache.find? (fun r => r.cache_key == engineKey req) = some row) :
    predict_reaction_endpoint req db =
      (.ok { request_id := req.request_id, products := row.products,
             effects := row.effects, state_change := row.state_change,
             description := row.description,
             is_world_first := (ReactionEngineService.check_world_first_effects
               row.effects req.user_id row.id db).1 },
       (ReactionEngineService.check_world_first_effects
         row.effects req.user_id row.id db).2) := by
  simp only [engineKey] at hfind
  unfold predict_reaction_endpoint ReactionEngineService.predict_reaction
  simp [hne, hfind]

/-- Endpoint equation: miss with a conflicting concurrent insert; the
IntegrityError escapes the engine and the endpoint rolls back, so only the
concurrently committed rows survive. -/
theorem endpoint_conflict (req : EngineRequest) (db : DB)
    (hne : req.chemicals.isEmpty = false)
    (hmiss : db.reaction_cache.find? (fun r => r.cache_key == engineKey req) = none)
    (hconf : (db.reaction_cache ++ req.interference).any
      (fun r => r.cache_key == engineKey req) = true) :
    predict_reaction_endpoint req db =
      (.error .uniqueViolation,
       { db with reaction_cache := db.reaction_cache ++ req.interference }) := by
  simp only [engineKey] at hmiss hconf
  unfold predict_reaction_endpoint ReactionEngineService.predict_reaction
  simp [hne, hmiss, hconf]

/-- Endpoint equation: miss, no conflict, but a fault after the flush; the
endpoint rolls back the session writes. -/
theorem endpoint_fault (req : EngineRequest) (db : DB)
    (hne : req.chemicals.isEmpty = false)
    (hmiss : db.reaction_cache.find? (fun r => r.cache_key == engineKey req) = none)
    (hnoc : (db.reaction_cache ++ req.interference).any
      (fun r => r.cache_key == engineKey req) = false)
    (hfault : req.fault = true) :
    predict_reaction_endpoint req db =
      (.error .injectedFault,
       { db with reaction_cache := db.reaction_cache ++ req.interference }) := by
  simp only [engineKey] at hmiss hnoc
  unfold predict_reaction_endpoint ReactionEngineService.predict_reaction
  simp [hne, hmiss, hnoc, hfault]

/-- Endpoint equation: successful miss.  The generated prediction is flushed
as a cache row regardless of which generation path produced it, the discovery
check runs on the flushed state, and the whole unit commits. -/
theorem endpoint_miss (req : EngineRequest) (db : DB)
    (hne : req.chemicals.isEmpty = false)
    (hmiss : db.reaction_cache.find? (fun r => r.cache_key == engineKey req) = none)
    (hnoc : (db.reaction_cache ++ req.interference).any
      (fun r => r.cache_key == engineKey req) = false)
    (hfault : req.fault = false) :
    predict_reaction_endpoint req db =
      (.ok { request_id := req.request_id,
             products := (enginePrediction req).2.products,
             effects := (enginePrediction req).2.effects,
             state_change := (enginePrediction req).2.state_change,
             description := (enginePrediction req).2.description,
             is_world_first := (ReactionEngineService.check_world_first_effects
               (enginePrediction req).2.effects req.user_id db.next_id
               (missDB req db)).1 },
       (ReactionEngineService.check_world_first_effects
         (enginePrediction req).2.effects req.user_id db.next_id (missDB req db)).2) := by
  simp only [engineKey] at hmiss hnoc
  unfold predict_reaction_endpoint ReactionEngineService.predict_reaction
  simp [hne, hmiss, hnoc, hfault, missDB, missEntry, enginePrediction, engineKey,
    List.append_assoc]

/-- Per-request step specification: each request appends a duplicate-free
batch of previously unseen effect keys to the ledger; a successful response
reports world-first exactly when its batch is non-empty; a failed request
appends nothing and leaves the cache with at most the concurrently committed
rows. -/
theorem endpoint_step_spec (req : EngineRequest) (db : DB) :
    ∃ tail : List Discovery,
      (predict_reaction_endpoint req db).2.discovery = db.discovery ++ tail ∧
      (discKeys tail).Nodup ∧
      (∀ e ∈ discKeys tail, e ∉ discKeys db.discovery) ∧
      (∀ r, (predict_reaction_endpoint req db).1 = .ok r →
        (r.is_world_first = true ↔ tail ≠ [])) ∧
      (∀ er, (predict_reaction_endpoint req db).1 = .error er →
        tail = [] ∧
        ((predict_reaction_endpoint req db).2.reaction_cache = db.reaction_cache ∨
         (predict_reaction_endpoint req db).2.reaction_cache =
           db.reaction_cache ++ req.interference)) := by
  cases hne : req.chemicals.isEmpty with
  | true =>
    rw [endpoint_empty req db hne]
    refine ⟨[], by simp, by simp, by simp, ?_, ?_⟩
    · intro r hr; cases hr
    · intro er _; exact ⟨rfl, Or.inl rfl⟩
  | false =>
    cases hfind : db.reaction_cache.find? (fun r => r.cache_key == engineKey req) with
    | some row =>
      rw [endpoint_hit req db row hne hfind]
      obtain ⟨tail, h1, h2, h3, h4⟩ :=
        check_world_first_effects_spec row.effects req.user_id row.id db
      refine ⟨tail, ?_, h2, h3, ?_, ?_⟩
      · rw [h1]
      · intro r hr
        injection hr with hr
        subst hr
        exact h4
      · intro er her; cases her
    | none =>
      cases hconf : (db.reaction_cache ++ req.interference).any
          (fun r => r.cache_key == engineKey req) with
      | true =>
        rw [endpoint_conflict req db hne hfind hconf]
        refine ⟨[], by simp, by simp, by simp, ?_, ?_⟩
        · intro r hr; cases hr
        · intro er _; exact ⟨rfl, Or.inr rfl⟩
      | false =>
        cases hfault : req.fault with
        | true =>
          rw [endpoint_fault req db hne hfind hconf hfault]
          refine ⟨[], by simp, by simp, by simp, ?_, ?_⟩
          · intro r hr; cases hr
          · intro er _; exact ⟨rfl, Or.inr rfl⟩
        | false =>
          rw [endpoint_miss req db hne hfind hconf hfault]
          obtain ⟨tail, h1, h2, h3, h4⟩ :=
            check_world_first_effects_spec (enginePrediction req).2.effects
              req.user_id db.next_id (missDB req db)
          refine ⟨tail, ?_, h2, ?_, ?_, ?_⟩
          · rw [h1]; simp [missDB]
          · intro e he
            have := h3 e he
            simpa [missDB] using this
          · intro r hr
            injection hr with hr
            subst hr
            exact h4
          · intro er her; cases her

theorem run_requests_cons (r : EngineRequest) (rs : List EngineRequest) (db : DB) :
    run_requests (r :: rs) db = run_requests rs (predict_reaction_endpoint r db).2 := rfl

theorem run_trace_cons (r : EngineRequest) (rs : List EngineRequest) (db : DB) :
    run_trace (r :: rs) db =
      ⟨(predict_reaction_endpoint r db).1, db, (predict_reaction_endpoint r db).2⟩ ::
        run_trace rs (predict_reaction_endpoint r db).2 := rfl

/-- The inserted keys of a step are the keys of its appended ledger batch. -/
theorem insertedKeys_eq_of_append {s : StepLog} {tail : List Discovery}
    (h : s.dbAfter.discovery = s.dbBefore.discovery ++ tail) :
    insertedKeys s = discKeys tail := by
  unfold insertedKeys
  rw [h, List.drop_left]
  rfl

/-- Ledger keys stay duplicate-free across any request sequence. -/
theorem run_requests_nodup (reqs : List EngineRequest) (db : DB)
    (h : (discKeys db.discovery).Nodup) :
    (discKeys (run_requests reqs db).discovery).Nodup := by
  induction reqs generalizing db with
  | nil => exact h
  | cons r rs ih =>
    rw [run_requests_cons]
    apply ih
    obtain ⟨tail, h1, h2, h3, -, -⟩ := endpoint_step_spec r db
    rw [h1, discKeys_append, List.nodup_append]
    exact ⟨h, h2, fun a ha hta => h3 a hta ha⟩

/-- Length of the per-effect filter as a count of ledger keys. -/
theorem filter_effect_length (l : List Discovery) (e : String) :
    (l.filter (fun d => d.effect == e)).length = (discKeys l).count e := by
  induction l with
  | nil => simp
  | cons d ds ih =>
    by_cases hd : d.effect = e
    · simp [List.filter_cons, discKeys_cons, hd, List.count_cons, ih]
    · simp [List.filter_cons, discKeys_cons, hd, List.count_cons, ih]

/-- At most one step of a trace inserts a given effect key, and none does if
the key is present at the start. -/
theorem trace_count_spec (reqs : List EngineRequest) (db : DB) (e : String) :
    ((run_trace reqs db).filter (fun s => (insertedKeys s).contains e)).length ≤ 1 ∧
    (e ∈ discKeys db.discovery →
      ((run_trace reqs db).filter (fun s => (insertedKeys s).contains e)).length = 0) := by
  induction reqs generalizing db with
  | nil => exact ⟨by simp [run_trace], fun _ => by simp [run_trace]⟩
  | cons r rs ih =>
    obtain ⟨tail, h1, h2, h3, h4, h5⟩ := endpoint_step_spec r db
    have hins : insertedKeys
        ⟨(predict_reaction_endpoint r db).1, db, (predict_reaction_endpoint r db).2⟩ =
        discKeys tail := insertedKeys_eq_of_append h1
    have hkeys : discKeys (predict_reaction_endpoint r db).2.discovery =
        discKeys db.discovery ++ discKeys tail := by
      rw [h1, discKeys_append]
    rw [run_trace_cons]
    cases hc : (discKeys tail).contains e with
    | true =>
      have hmem : e ∈ discKeys tail := by simpa using hc
      constructor
      · rw [List.filter_cons]
        simp only [hins, hc, if_pos]
        have hrest := (ih (predict_reaction_endpoint r db).2).2
          (by rw [hkeys]; exact List.mem_append_right _ hmem)
        rw [List.length_cons, hrest]
      · intro he
        exact absurd he (h3 e hmem)
    | false =>
      constructor
      · rw [List.filter_cons]
        simp only [hins, hc]
        simpa using (ih (predict_reaction_endpoint r db).2).1
      · intro he
        rw [List.filter_cons]
        simp only [hins, hc]
        simpa using (ih (predict_reaction_endpoint r db).2).2
          (by rw [hkeys]; exact List.mem_append_left _ he)

/-- Every step of a trace satisfies the per-request specification. -/
theorem run_trace_step_prop (reqs : List EngineRequest) (db : DB) :
    ∀ s ∈ run_trace reqs db,
      ∃ tail : List Discovery,
        s.dbAfter.discovery = s.dbBefore.discovery ++ tail ∧
        (∀ e ∈ discKeys tail, e ∉ discKeys s.dbBefore.discovery) ∧
        (∀ r, s.result = .ok r → (r.is_world_first = true ↔ tail ≠ [])) := by
  induction reqs generalizing db with
  | nil => intro s hs; cases hs
  | cons r rs ih =>
    intro s hs
    rw [run_trace_cons] at hs
    rcases List.mem_cons.mp hs with rfl | hmem
    · obtain ⟨tail, h1, h2, h3, h4, h5⟩ := endpoint_step_spec r db
      exact ⟨tail, h1, h3, h4⟩
    · exact ih _ s hmem

/-! ## Claim theorems -/

/-- C3: for every effect key, across any sequence of reaction-prediction
requests, at most one Discovery row with that key ever exists in the ledger,
at most one request of the sequence inserts a Discovery for that key (so at
most one response is world-first on account of it), and any request that runs
after the key is present and still reports world-first must have inserted
some other, previously unseen, effect key. -/
theorem c3_world_first_exactly_once (reqs : List EngineRequest) (db0 : DB) (e : String)
    (h : (discKeys db0.discovery).Nodup) :
    ((run_requests reqs db0).discovery.filter (fun d => d.effect == e)).length ≤ 1 ∧
    ((run_trace reqs db0).filter (fun s => (insertedKeys s).contains e)).length ≤ 1 ∧
    (∀ s ∈ run_trace reqs db0, worldFirstOf s = true →
      e ∈ discKeys s.dbBefore.discovery →
      ∃ x, x ∈ insertedKeys s ∧ x ∉ discKeys s.dbBefore.discovery ∧ x ≠ e) := by
  refine ⟨?_, (trace_count_spec reqs db0 e).1, ?_⟩
  · have hnd := run_requests_nodup reqs db0 h
    rw [filter_effect_length]
    exact List.nodup_iff_count_le_one.mp hnd e
  · intro s hs hwf he
    obtain ⟨tail, h1, h2, h3⟩ := run_trace_step_prop reqs db0 s hs
    cases hres : s.result with
    | error er => simp [worldFirstOf, hres] at hwf
    | ok r =>
      have hw : r.is_world_first = true := by simpa [worldFirstOf, hres] using hwf
      have htail : tail ≠ [] := (h3 r hres).mp hw
      have hne : discKeys tail ≠ [] := by
        cases tail with
        | nil => exact absurd rfl htail
        | cons d ds => simp
      obtain ⟨x, hx⟩ := List.exists_mem_of_ne_nil _ hne
      refine ⟨x, ?_, h2 x hx, ?_⟩
      · rw [insertedKeys_eq_of_append h1]; exact hx
      · intro heq
        exact h2 x hx (heq ▸ he)

/-- A concrete request used to instantiate the C3 theorem. -/
def c3Req : EngineRequest :=
  ⟨"r3", false, [], fun _ _ => .exn, "b", ["H2O", "NaCl"], "Earth (Normal)", 1, [], false⟩

/-- C3 witness: the theorem applied to a concrete two-request run. -/
theorem c3_world_first_exactly_once_witness :
    (discKeys (emptyDB.discovery)).Nodup ∧
    (((run_requests [c3Req, c3Req] emptyDB).discovery.filter
        (fun d => d.effect == "dissolving")).length ≤ 1 ∧
     ((run_trace [c3Req, c3Req] emptyDB).filter
        (fun s => (insertedKeys s).contains "dissolving")).length ≤ 1 ∧
     (∀ s ∈ run_trace [c3Req, c3Req] emptyDB, worldFirstOf s = true →
        "dissolving" ∈ discKeys s.dbBefore.discovery →
        ∃ x, x ∈ insertedKeys s ∧ x ∉ discKeys s.dbBefore.discovery ∧
          x ≠ "dissolving")) :=
  ⟨by simp [emptyDB], c3_world_first_exactly_once [c3Req, c3Req] emptyDB "dissolving"
    (by simp [emptyDB])⟩

/-- The canonical serialization of one serialized reactant (water, sorted
keys), as json.dumps(sort_keys=True) renders it. -/
def c4Elem1 : String :=
  "\x7b\"id\": 1, \"molecular_formula\": \"H2O\", \"quantity\": 1.0\x7d"

/-- The canonical serialization of a second serialized reactant (salt). -/
def c4Elem2 : String :=
  "\x7b\"id\": 2, \"molecular_formula\": \"NaCl\", \"quantity\": 1.0\x7d"

set_option maxRecDepth 4096 in
/-- C4 (amended): the engine deriver is a pure function invariant under
permutation of the reactant list (though case-sensitive, see the
counterexample); the ReactionService deriver is not even permutation-
invariant — json.dumps(sort_keys=True) sorts dict keys only, the serialized
reactant list keeps its submission order, and permuted reactants hash to
different fingerprints. -/
theorem c4_amended_cache_key_derivers :
    (∀ (R P : List String) (E : String), R.Perm P →
      ReactionEngineService.generate_cache_key R E =
        ReactionEngineService.generate_cache_key P E) ∧
    ReactionService.generate_cache_key [c4Elem1, c4Elem2] "Earth (Normal)" "None" ≠
      ReactionService.generate_cache_key [c4Elem2, c4Elem1] "Earth (Normal)" "None" :=
  ⟨fun R P E h => generate_cache_key_perm R P E h, by decide⟩

set_option maxRecDepth 4096 in
/-- C4 witness: engine permutation invariance applied at a concrete instance,
together with the service-side inequality. -/
theorem c4_amended_cache_key_derivers_witness :
    (["NaCl", "H2O"] : List String).Perm ["H2O", "NaCl"] ∧
    ReactionEngineService.generate_cache_key ["NaCl", "H2O"] "Earth (Normal)" =
      ReactionEngineService.generate_cache_key ["H2O", "NaCl"] "Earth (Normal)" ∧
    ReactionService.generate_cache_key [c4Elem1, c4Elem2] "Earth (Normal)" "None" ≠
      ReactionService.generate_cache_key [c4Elem2, c4Elem1] "Earth (Normal)" "None" :=
  ⟨by decide, c4_amended_cache_key_derivers.1 _ _ _ (by decide),
    c4_amended_cache_key_derivers.2⟩

/-- C4 counterexample: the claimed case-invariance fails; identifiers
differing only in letter casing hash to different fingerprints. -/
theorem c4_case_sensitivity_counterexample :
    ReactionEngineService.generate_cache_key ["h2o"] "Earth (Normal)" ≠
      ReactionEngineService.generate_cache_key ["H2O"] "Earth (Normal)" := by
  decide

/-- Key membership after a Python-dict insert. -/
theorem mem_dictKeys_dictInsert (d : List (String × PubRecord)) (k : String)
    (v : PubRecord) (x : String) :
    x ∈ PubChemService.dictKeys (PubChemService.dictInsert d k v) ↔
      x ∈ PubChemService.dictKeys d ∨ x = k := by
  unfold PubChemService.dictInsert PubChemService.dictKeys
  by_cases hany : d.any (fun p => p.1 == k)
  · rw [if_pos hany]
    simp only [List.any_eq_true, beq_iff_eq] at hany
    obtain ⟨p0, hp0, hp0k⟩ := hany
    simp only [List.map_map, List.mem_map, Function.comp]
    constructor
    · rintro ⟨p, hp, rfl⟩
      by_cases hpk : p.1 = k
      · right; simp [hpk]
      · left; exact ⟨p, hp, by simp [hpk]⟩
    · rintro (⟨p, hp, rfl⟩ | rfl)
      · by_cases hpk : p.1 = k
        · exact ⟨p, hp, by simp [hpk]⟩
        · exact ⟨p, hp, by simp [hpk]⟩
      · exact ⟨p0, hp0, by simp [hp0k]⟩
  · rw [if_neg hany]
    simp [List.mem_map, List.mem_append]

/-- Key membership after folding inserts of computed records. -/
theorem mem_dictKeys_foldl_insert (f : String → PubRecord) (compounds : List String)
    (acc : List (String × PubRecord)) (x : String) :
    x ∈ PubChemService.dictKeys
      (compounds.foldl (fun a c => PubChemService.dictInsert a c (f c)) acc) ↔
    x ∈ PubChemService.dictKeys acc ∨ x ∈ compounds := by
  induction compounds generalizing acc with
  | nil => simp
  | cons c cs ih =>
    rw [List.foldl_cons, ih]
    rw [mem_dictKeys_dictInsert]
    simp [List.mem_cons]
    tauto

/-- get_multiple_compounds_data as a plain fold of dict inserts: every
per-compound fetch returns a record (never None), so nothing is skipped. -/
theorem gmcd_eq_fold (oracle : String → HttpResult) (base : String)
    (compounds : List String) :
    PubChemService.get_multiple_compounds_data oracle base compounds =
      compounds.foldl (fun a c => PubChemService.dictInsert a c
        (PubChemService.sync_get_compound_data oracle base c)) [] := by
  unfold PubChemService.get_multiple_compounds_data
  rw [List.foldl_map]
  rfl

/-- The aggregated mapping has exactly the input identifiers as keys. -/
theorem mem_keys_get_multiple (oracle : String → HttpResult) (base : String)
    (compounds : List String) (x : String) :
    x ∈ PubChemService.dictKeys
      (PubChemService.get_multiple_compounds_data oracle base compounds) ↔
    x ∈ compounds := by
  rw [gmcd_eq_fold, mem_dictKeys_foldl_insert]
  simp [PubChemService.dictKeys]

/-- A non-empty identifier list yields a non-empty mapping. -/
theorem gmcd_ne_nil (oracle : String → HttpResult) (base : String)
    {compounds : List String} (h : compounds ≠ []) :
    PubChemService.get_multiple_compounds_data oracle base compounds ≠ [] := by
  cases compounds with
  | nil => exact absurd rfl h
  | cons c cs =>
    intro hnil
    have hmem := (mem_keys_get_multiple oracle base (c :: cs) c).mpr (by simp)
    rw [hnil] at hmem
    simp [PubChemService.dictKeys] at hmem

/-- C7: for every identifier list and every behaviour of the external
service, the fact-retrieval wrapper returns a mapping whose key set is
exactly the input identifier set; it is a total function (every exception
point of the embedded code is caught inside it), so it never raises to the
caller. -/
theorem c7_fact_retrieval_total_keys (oracle : Nat → String → HttpResult)
    (base : String) (chemicals : List String) (c : String) :
    c ∈ PubChemService.dictKeys
      (ReactionEngineService.get_chemical_context_with_retries oracle base chemicals) ↔
    c ∈ chemicals := by
  unfold ReactionEngineService.get_chemical_context_with_retries
  by_cases h0 : (PubChemService.get_multiple_compounds_data (oracle 0) base chemicals).isEmpty
  · have hnil : chemicals = [] := by
      by_contra hne
      exact gmcd_ne_nil (oracle 0) base hne (List.isEmpty_iff.mp h0)
    subst hnil
    simp [PubChemService.get_multiple_compounds_data, PubChemService.dictKeys]
  · rw [if_pos (by simpa using h0)]
    exact mem_keys_get_multiple (oracle 0) base chemicals c

/-- C8: issuing the same logical request twice (the second reactant list a
permutation of the first, same environment) with the first prediction
persisted makes the second run a cache hit, and both responses carry
identical products, effects, state_change and description. -/
theorem c8_cache_idempotence (r1 r2 : EngineRequest) (db0 : DB)
    (hperm : r2.chemicals.Perm r1.chemicals)
    (henv : r2.environment = r1.environment)
    (hne : r1.chemicals.isEmpty = false)
    (hmiss : db0.reaction_cache.find? (fun r => r.cache_key == engineKey r1) = none)
    (hint : r1.interference = [])
    (hfault : r1.fault = false) :
    ∃ a b, (predict_reaction_endpoint r1 db0).1 = .ok a ∧
      (predict_reaction_endpoint r2 (predict_reaction_endpoint r1 db0).2).1 = .ok b ∧
      b.products = a.products ∧ b.effects = a.effects ∧
      b.state_change = a.state_change ∧ b.description = a.description := by
  have hkey : engineKey r2 = engineKey r1 := by
    unfold engineKey
    rw [henv]
    exact generate_cache_key_perm _ _ _ hperm
  have hnoc : (db0.reaction_cache ++ r1.interference).any
      (fun r => r.cache_key == engineKey r1) = false := by
    rw [hint, List.append_nil, List.any_eq_false]
    intro x hx
    exact List.find?_eq_none.mp hmiss x hx
  have hne2 : r2.chemicals.isEmpty = false := by
    cases h2 : r2.chemicals with
    | nil =>
      rw [h2] at hperm
      rw [List.nil_perm.mp hperm] at hne
      simp at hne
    | cons a as => simp [h2]
  obtain ⟨tailA, hA1, -, -, -⟩ :=
    check_world_first_effects_spec (enginePrediction r1).2.effects r1.user_id
      db0.next_id (missDB r1 db0)
  have hcache1 : (ReactionEngineService.check_world_first_effects
      (enginePrediction r1).2.effects r1.user_id db0.next_id
      (missDB r1 db0)).2.reaction_cache =
      db0.reaction_cache ++ [missEntry r1 db0] := by
    rw [hA1]
    simp [missDB, hint]
  have hfind2 : (ReactionEngineService.check_world_first_effects
      (enginePrediction r1).2.effects r1.user_id db0.next_id
      (missDB r1 db0)).2.reaction_cache.find?
        (fun r => r.cache_key == engineKey r2) = some (missEntry r1 db0) := by
    rw [hcache1, hkey, find?_append_of_none _ _ hmiss]
    simp [List.find?_cons, missEntry]
  rw [endpoint_miss r1 db0 hne hmiss hnoc hfault]
  rw [endpoint_hit r2 _ (missEntry r1 db0) hne2 hfind2]
  exact ⟨_, _, rfl, rfl, rfl, rfl, rfl, rfl⟩

/-- First request of the C8 witness pair. -/
def c8Req1 : EngineRequest :=
  ⟨"r8a", false, [], fun _ _ => .exn, "b", ["NaCl", "H2O"], "Earth (Normal)", 1, [], false⟩

/-- Second request of the C8 witness pair (permuted reactants, other user). -/
def c8Req2 : EngineRequest :=
  ⟨"r8b", false, [], fun _ _ => .exn, "b", ["H2O", "NaCl"], "Earth (Normal)", 2, [], false⟩

/-- C8 witness: the theorem applied to a concrete pair of runs. -/
theorem c8_cache_idempotence_witness :
    (c8Req2.chemicals.Perm c8Req1.chemicals ∧
     c8Req2.environment = c8Req1.environment ∧
     c8Req1.chemicals.isEmpty = false ∧
     emptyDB.reaction_cache.find? (fun r => r.cache_key == engineKey c8Req1) = none ∧
     c8Req1.interference = [] ∧ c8Req1.fault = false) ∧
    (∃ a b, (predict_reaction_endpoint c8Req1 emptyDB).1 = .ok a ∧
      (predict_reaction_endpoint c8Req2 (predict_reaction_endpoint c8Req1 emptyDB).2).1 =
        .ok b ∧
      b.products = a.products ∧ b.effects = a.effects ∧
      b.state_change = a.state_change ∧ b.description = a.description) :=
  ⟨⟨by decide, rfl, rfl, rfl, rfl, rfl⟩,
   c8_cache_idempotence c8Req1 c8Req2 emptyDB (by decide) rfl rfl rfl rfl rfl⟩

/-- C9: a cache hit leaves every ReactionCache row unchanged (no update, no
insert, no id consumed), answers with exactly the stored row's products,
effects, state_change and description, and can only ever extend the
Discovery ledger. -/
theorem c9_cache_hit_frame (req : EngineRequest) (db : DB) (row : ReactionCache)
    (hne : req.chemicals.isEmpty = false)
    (hfind : db.reaction_cache.find? (fun r => r.cache_key == engineKey req) = some row) :
    ∃ resp, (predict_reaction_endpoint req db).1 = .ok resp ∧
      resp.products = row.products ∧ resp.effects = row.effects ∧
      resp.state_change = row.state_change ∧ resp.description = row.description ∧
      (predict_reaction_endpoint req db).2.reaction_cache = db.reaction_cache ∧
      (predict_reaction_endpoint req db).2.next_id = db.next_id ∧
      ∃ tail, (predict_reaction_endpoint req db).2.discovery = db.discovery ++ tail := by
  obtain ⟨tail, h1, -, -, -⟩ :=
    check_world_first_effects_spec row.effects req.user_id row.id db
  rw [endpoint_hit req db row hne hfind]
  refine ⟨_, rfl, rfl, rfl, rfl, rfl, ?_, ?_, ⟨tail, ?_⟩⟩
  · rw [h1]
  · rw [h1]
  · rw [h1]

/-- The request of the C9 witness. -/
def c9Req : EngineRequest :=
  ⟨"r9", false, [], fun _ _ => .exn, "b", ["CO2"], "Vacuum", 5, [], false⟩

/-- The pre-existing cache row of the C9 witness. -/
def c9Row : ReactionCache :=
  { id := 3, cache_key := ReactionEngineService.generate_cache_key ["CO2"] "Vacuum",
    reactants := ["CO2"], environment := "Vacuum",
    products := [⟨"CO2", "Carbon Dioxide", "gas"⟩], effects := ["sublimation"],
    state_change := none, description := "stored", user_id := 2 }

def c9DB : DB := ⟨[c9Row], [], 4⟩

/-- C9 witness: the theorem applied to a concrete hit. -/
theorem c9_cache_hit_frame_witness :
    (c9Req.chemicals.isEmpty = false ∧
     c9DB.reaction_cache.find? (fun r => r.cache_key == engineKey c9Req) = some c9Row) ∧
    (∃ resp, (predict_reaction_endpoint c9Req c9DB).1 = .ok resp ∧
      resp.products = c9Row.products ∧ resp.effects = c9Row.effects ∧
      resp.state_change = c9Row.state_change ∧ resp.description = c9Row.description ∧
      (predict_reaction_endpoint c9Req c9DB).2.reaction_cache = c9DB.reaction_cache ∧
      (predict_reaction_endpoint c9Req c9DB).2.next_id = c9DB.next_id ∧
      ∃ tail, (predict_reaction_endpoint c9Req c9DB).2.discovery =
        c9DB.discovery ++ tail) :=
  ⟨⟨rfl, by decide⟩, c9_cache_hit_frame c9Req c9DB c9Row rfl (by decide)⟩

/-- A reactant row for the service-side examples. -/
def c2Chem : Chemical := ⟨1, "Na", "Sodium"⟩

/-- A validated generated prediction for the service-side examples. -/
def c2Pred : ServicePrediction :=
  { products := [⟨some 5, "H2", "Hydrogen", 1, true⟩],
    effects := [⟨"gas_evolution"⟩], explanation := "generated" }

/-- C2 counterexample: in the ReactionService pipeline the cache insert is
committed on its own before discovery logging, so a failure during discovery
logging leaves a reachable post-state holding the new cache row with no
discovery bookkeeping at all — the claimed atomicity fails there. -/
theorem c2_service_commits_cache_without_discoveries :
    ((ReactionService.predict_reaction "k" "Earth (Normal)" [c2Chem] true (some c2Pred)
        true 1 emptySvcDB).1 = .error .injectedFault) ∧
    ((ReactionService.predict_reaction "k" "Earth (Normal)" [c2Chem] true (some c2Pred)
        true 1 emptySvcDB).2.reaction_cache ≠ []) ∧
    ((ReactionService.predict_reaction "k" "Earth (Normal)" [c2Chem] true (some c2Pred)
        true 1 emptySvcDB).2.discovery = []) := by
  refine ⟨rfl, ?_, rfl⟩
  decide

/-- C2 (amended): in the engine-plus-endpoint pipeline the claim holds — any
failure after the cache insert rolls the whole transaction back, so the
post-state keeps its original ledger and gains at most concurrently committed
rows; in the ReactionService pipeline it does not — the cache row is
committed before discovery logging and survives a failure there alone. -/
theorem c2_amended_transaction_discipline :
    (∀ (req : EngineRequest) (db : DB) (er : EngineError),
      (predict_reaction_endpoint req db).1 = .error er →
      (predict_reaction_endpoint req db).2.discovery = db.discovery ∧
      ((predict_reaction_endpoint req db).2.reaction_cache = db.reaction_cache ∨
       (predict_reaction_endpoint req db).2.reaction_cache =
         db.reaction_cache ++ req.interference)) ∧
    (∀ (ck env : String) (reactants : List Chemical) (pred : ServicePrediction)
       (u : Nat) (db : SvcDB),
      db.reaction_cache.find? (fun r => r.cache_key == ck) = none →
      (ReactionService.predict_reaction ck env reactants true (some pred) true u db).1 =
        .error .injectedFault ∧
      (ReactionService.predict_reaction ck env reactants true (some pred) true u db).2 =
        { db with
          reaction_cache := db.reaction_cache ++
            [{ id := db.next_id, cache_key := ck,
               reactants := reactants.map (fun r => r.molecular_formula),
               environment := env, products := pred.products, effects := pred.effects,
               explanation := pred.explanation, user_id := u }],
          next_id := db.next_id + 1 }) := by
  constructor
  · intro req db er her
    obtain ⟨tail, h1, -, -, -, h5⟩ := endpoint_step_spec req db
    obtain ⟨htail, hcache⟩ := h5 er her
    subst htail
    rw [List.append_nil] at h1
    exact ⟨h1, hcache⟩
  · intro ck env reactants pred u db hfind
    unfold ReactionService.predict_reaction
    rw [hfind]
    simp

/-- An engine request failing before any write (empty reactant list). -/
def c2EngineReq : EngineRequest :=
  ⟨"r2", false, [], fun _ _ => .exn, "b", [], "Earth (Normal)", 1, [], false⟩

/-- C2 witness: both halves of the amended claim at concrete inputs. -/
theorem c2_amended_transaction_discipline_witness :
    ((predict_reaction_endpoint c2EngineReq emptyDB).1 = .error .emptyRequest ∧
     (predict_reaction_endpoint c2EngineReq emptyDB).2.discovery = emptyDB.discovery ∧
     ((predict_reaction_endpoint c2EngineReq emptyDB).2.reaction_cache =
        emptyDB.reaction_cache ∨
      (predict_reaction_endpoint c2EngineReq emptyDB).2.reaction_cache =
        emptyDB.reaction_cache ++ c2EngineReq.interference)) ∧
    (emptySvcDB.reaction_cache.find? (fun r => r.cache_key == "k") = none ∧
     (ReactionService.predict_reaction "k" "E" [c2Chem] true (some c2Pred)
        true 1 emptySvcDB).1 = .error .injectedFault ∧
     (ReactionService.predict_reaction "k" "E" [c2Chem] true (some c2Pred)
        true 1 emptySvcDB).2 =
       { emptySvcDB with
         reaction_cache := emptySvcDB.reaction_cache ++
           [{ id := emptySvcDB.next_id, cache_key := "k",
              reactants := [c2Chem].map (fun r => r.molecular_formula),
              environment := "E", products := c2Pred.products,
              effects := c2Pred.effects, explanation := c2Pred.explanation,
              user_id := 1 }],
         next_id := emptySvcDB.next_id + 1 }) :=
  ⟨⟨rfl, c2_amended_transaction_discipline.1 c2EngineReq emptyDB .emptyRequest rfl⟩,
   ⟨rfl, c2_amended_transaction_discipline.2 "k" "E" [c2Chem] c2Pred 1 emptySvcDB rfl⟩⟩

/-- The concurrently committed winning row of the C5 race. -/
def c5Row : ReactionCache :=
  { id := 9, cache_key := ReactionEngineService.generate_cache_key ["Na"] "Vacuum",
    reactants := ["Na"], environment := "Vacuum",
    products := [⟨"H2", "Hydrogen Gas", "gas"⟩], effects := ["gas_evolution"],
    state_change := some "gas", description := "winner", user_id := 2 }

/-- The losing request of the C5 race: it saw a miss, generated, and flushes
after c5Row was committed by the concurrent winner. -/
def c5Req : EngineRequest :=
  ⟨"r5", false, [], fun _ _ => .exn, "b", ["Na"], "Vacuum", 1, [c5Row], false⟩

/-- C5 counterexample: the unique-constraint violation on the fingerprint is
not caught anywhere — the loser's request surfaces a generic error instead of
re-querying the cache and returning the winner's row as a hit. -/
theorem c5_unique_violation_propagates :
    (predict_reaction_endpoint c5Req emptyDB).1 = .error .uniqueViolation := rfl

/-- C5 (amended): when a concurrent request commits the same fingerprint
between our cache lookup and our flush, the IntegrityError propagates to the
endpoint's generic handler: the caller gets an error (no re-query, no cache
hit), the transaction rolls back, and only the winner's row survives. -/
theorem c5_amended_race_unhandled (req : EngineRequest) (db : DB)
    (hne : req.chemicals.isEmpty = false)
    (hmiss : db.reaction_cache.find? (fun r => r.cache_key == engineKey req) = none)
    (hconf : (db.reaction_cache ++ req.interference).any
      (fun r => r.cache_key == engineKey req) = true) :
    (predict_reaction_endpoint req db).1 = .error .uniqueViolation ∧
    (predict_reaction_endpoint req db).2 =
      { db with reaction_cache := db.reaction_cache ++ req.interference } := by
  rw [endpoint_conflict req db hne hmiss hconf]
  exact ⟨rfl, rfl⟩

/-- C5 witness: the amended claim at the concrete race. -/
theorem c5_amended_race_unhandled_witness :
    (c5Req.chemicals.isEmpty = false ∧
     emptyDB.reaction_cache.find? (fun r => r.cache_key == engineKey c5Req) = none ∧
     (emptyDB.reaction_cache ++ c5Req.interference).any
       (fun r => r.cache_key == engineKey c5Req) = true) ∧
    ((predict_reaction_endpoint c5Req emptyDB).1 = .error .uniqueViolation ∧
     (predict_reaction_endpoint c5Req emptyDB).2 =
       { emptyDB with reaction_cache := emptyDB.reaction_cache ++ c5Req.interference }) :=
  ⟨⟨rfl, rfl, by decide⟩, c5_amended_race_unhandled c5Req emptyDB rfl rfl (by decide)⟩

/-- C6 counterexample: the ReactionService fallback predictor returns an
empty effects list even for a non-empty reactant list, so the claimed
"at least one effect" fails on that fallback. -/
theorem c6_service_fallback_has_no_effects :
    (ReactionService.fallback_prediction [⟨1, "H2O", "Water"⟩]).effects = [] := rfl

/-- C6 (amended): the engine's physics-based fallback always returns at least
one product and at least one effect for a non-empty reactant list; the
ReactionService disabled-reasoning fallback returns one product per reactant
but always an empty effects list. -/
theorem c6_amended_fallback_shape (chemicals : List String) (environment : String)
    (ctx : List (String × PubRecord)) (h : chemicals ≠ []) :
    (ReactionEngineService.get_physics_based_fallback chemicals environment
      ctx).products ≠ [] ∧
    (ReactionEngineService.get_physics_based_fallback chemicals environment
      ctx).effects ≠ [] ∧
    (∀ reactants : List Chemical,
      (ReactionService.fallback_prediction reactants).products.length =
        reactants.length ∧
      (ReactionService.fallback_prediction reactants).effects = []) := by
  refine ⟨?_, ?_, fun reactants =>
    ⟨by simp [ReactionService.fallback_prediction], rfl⟩⟩
  · unfold ReactionEngineService.get_physics_based_fallback
    simp only []
    split
    · simp
    · split
      · simp
      · split
        · simp
        · simp [h]
  · have key : ∀ X : List String,
        (if X.isEmpty = true then ["mixing", "temperature_change"] else X) ≠ [] := by
      intro X
      by_cases hX : X.isEmpty = true
      · rw [if_pos hX]; simp
      · rw [if_neg hX]
        simpa [List.isEmpty_iff] using hX
    unfold ReactionEngineService.get_physics_based_fallback
    simp only []
    exact key _

/-- C6 witness: the amended claim at a concrete non-empty reactant list. -/
theorem c6_amended_fallback_shape_witness :
    (["H2O"] : List String) ≠ [] ∧
    ((ReactionEngineService.get_physics_based_fallback ["H2O"] "Earth (Normal)"
        []).products ≠ [] ∧
     (ReactionEngineService.get_physics_based_fallback ["H2O"] "Earth (Normal)"
        []).effects ≠ [] ∧
     (∀ reactants : List Chemical,
       (ReactionService.fallback_prediction reactants).products.length =
         reactants.length ∧
       (ReactionService.fallback_prediction reactants).effects = [])) :=
  ⟨by simp, c6_amended_fallback_shape ["H2O"] "Earth (Normal)" [] (by simp)⟩

/-- The failing input of C1: a fallback-producing request (reasoning
unconfigured) against an empty store. -/
def c1Req : EngineRequest :=
  ⟨"r1", false, [], fun _ _ => .exn, "b", ["H2O", "NaCl"], "Earth (Normal)", 1, [], false⟩

/-- C1: evaluation of the code at the failing input.  The prediction comes
from the heuristic fallback path (no reasoning backend configured), yet the
request persists a new ReactionCache row — the engine inserts and flushes the
entry regardless of which generation path produced the prediction,
contradicting the claimed fallback-never-cached behaviour (which the
repository's own test suite also asserts). -/
theorem c1_fallback_result_is_cached :
    (enginePrediction c1Req).1 = ReactionEngineService.GenSource.fallback ∧
    emptyDB.reaction_cache = [] ∧
    (predict_reaction_endpoint c1Req emptyDB).2.reaction_cache =
      [missEntry c1Req emptyDB] := by
  refine ⟨rfl, rfl, ?_⟩
  rw [endpoint_miss c1Req emptyDB rfl rfl rfl rfl]
  obtain ⟨tail, h1, -, -, -⟩ :=
    check_world_first_effects_spec (enginePrediction c1Req).2.effects c1Req.user_id
      emptyDB.next_id (missDB c1Req emptyDB)
  rw [h1]
  simp [missDB, emptyDB, c1Req]

/-- C10: an empty effects list inserts nothing into the Discovery ledger and
reports no world first; the ReactionService disabled-reasoning fallback has
empty effects and a false flag by construction, and the service's fallback
path on a cache miss returns it with the store untouched, so it can never
produce a world-first response. -/
theorem c10_empty_effects_no_discovery :
    (∀ (u cid : Nat) (db : DB),
      ReactionEngineService.check_world_first_effects [] u cid db = (false, db)) ∧
    (∀ reactants : List Chemical,
      (ReactionService.fallback_prediction reactants).effects = [] ∧
      (ReactionService.fallback_prediction reactants).is_world_first = false) ∧
    (∀ (ck env : String) (reactants : List Chemical) (dres : Option ServicePrediction)
       (fault : Bool) (u : Nat) (db : SvcDB),
      db.reaction_cache.find? (fun r => r.cache_key == ck) = none →
      ReactionService.predict_reaction ck env reactants false dres fault u db =
        (.ok (ReactionService.fallback_prediction reactants), db)) := by
  refine ⟨fun u cid db => rfl, fun reactants => ⟨rfl, rfl⟩, ?_⟩
  intro ck env reactants dres fault u db hfind
  unfold ReactionService.predict_reaction
  rw [hfind]
  simp

/-- C10 witness: the three components at concrete inputs. -/
theorem c10_empty_effects_no_discovery_witness :
    ReactionEngineService.check_world_first_effects [] 1 1 emptyDB = (false, emptyDB) ∧
    (ReactionService.fallback_prediction []).effects = [] ∧
    emptySvcDB.reaction_cache.find? (fun r => r.cache_key == "k") = none ∧
    ReactionService.predict_reaction "k" "E" [] false none false 1 emptySvcDB =
      (.ok (ReactionService.fallback_prediction []), emptySvcDB) :=
  ⟨c10_empty_effects_no_discovery.1 1 1 emptyDB,
   (c10_empty_effects_no_discovery.2.1 []).1,
   rfl,
   c10_empty_effects_no_discovery.2.2 "k" "E" [] none false 1 emptySvcDB rfl⟩

/-- Validation of the SHA-256 embedding against the FIPS 180 test vector. -/
theorem sha256_reference_vector :
    sha256Hex (strBytes "abc") =
      "ba7816bf8f01cfea414140de5dae2223b00361a396177a9cb410ff61f20015ad" := by
  decide

/-- Validation of the whole key derivation (sorting, json serialization,
hashing) against the digest produced by the Python implementation. -/
theorem generate_cache_key_reference_vector :
    ReactionEngineService.generate_cache_key ["h2o"] "Earth (Normal)" =
      "0e0558d8e0d4f4b0a60d02e2acca2171f6bebf017053536dfec5c0ce0a0b0091" := by
  decide
